import Mathlib

/-!
# Verification of the CircuiTikZ-Designer geometric interaction engine

Shallow embedding of the core geometry/interaction code of the repository:

* `SnapPoint` (src/unnamed/part_002) — live points relative to an owner,
  modelled over `ℝ` because the source uses `Math.sin`/`Math.cos`/`Math.PI`;
* `LineDrawer` (src/src/scripts/lines/lineDrawer.js) — the orthogonal
  wire-routing state machine, modelled over `ℚ` (exact canvas coordinates);
* `SelectionController` (src/src/scripts/controllers/selectionController.js) —
  marquee selection and group transforms; per-object geometry mutators
  (`rotate`, `flip`, `moveRel`, …) live outside the given sources, so the
  group transforms are embedded as the exact list of operations they emit;
* `ComponentSymbol` (src/unnamed/part_000) — symbol metadata and anchor
  parsing.

Coordinates that the JavaScript code manipulates as IEEE doubles are
modelled as exact rationals (`ℚ`) resp. reals (`ℝ`); all branch structure is
taken verbatim from the source.
-/

/-! ## Points over ℚ (canvas coordinates for the drawer / selection code) -/

/-- A 2-D canvas point with exact rational coordinates. -/
structure Pt where
  x : ℚ
  y : ℚ
deriving DecidableEq, Repr

/-! ## Line Router (`LineDrawer`, src/src/scripts/lines/lineDrawer.js)

State of the in-progress line drawing: `#horizontalFirst`,
`#holdDirectionSet`, `#lastLineDirection`, `#wasAboveXAxis`,
`#wasRightOfYAxis`, `#lastPoint`.  The `Line` object itself (the svg.js
polyline being drawn) does not influence the routing decisions, so it is not
part of the state; `updateMousePoint`/`pushPoint` receive the decision. -/

/-- `#lastLineDirection` of `LineDrawer`: direction of the previous
committed segment. -/
structure LineDirection where
  up : Bool
  right : Bool
  down : Bool
  left : Bool
deriving DecidableEq, Repr

/-- The routing-relevant mutable state of `LineDrawer`.  `lastPoint = none`
models the JavaScript `#lastPoint = null` (no start point fixed yet);
`wasAboveXAxis`/`wasRightOfYAxis` are uninitialised before the first move in
the source and only written before first being read, so they are plain
`Bool` fields here. -/
structure DrawerState where
  horizontalFirst : Bool
  holdDirectionSet : Bool
  lastLineDirection : LineDirection
  wasAboveXAxis : Bool
  wasRightOfYAxis : Bool
  lastPoint : Option Pt
deriving DecidableEq, Repr

/-- `#resetVars` of `LineDrawer` (lines 167–176): state after activation or
after a line is finished/cancelled. -/
def DrawerState.reset : DrawerState where
  horizontalFirst := false
  holdDirectionSet := false
  lastLineDirection := ⟨false, false, false, false⟩
  wasAboveXAxis := false
  wasRightOfYAxis := false
  lastPoint := none

/-- `LineDrawer.#moveListener` (lines 182–219), for the case that a line is
in progress (`#newLine` set, hence `lastPoint ≠ none`); `last` is the
dereferenced `#lastPoint` and `snapped` the (already snapped) cursor
position.  Returns the updated state; the routing decision passed to
`updateMousePoint` is the returned `horizontalFirst`. -/
def moveListener (s : DrawerState) (last snapped : Pt) : DrawerState :=
  let isAboveXAxis : Bool := decide (snapped.y < last.y)
  let isRightOfYAxis : Bool := decide (snapped.x > last.x)
  -- first the `#holdDirectionSet` branch (lines 192–206), yielding the
  -- chosen `#horizontalFirst` and `#holdDirectionSet` values …
  let held : Bool × Bool :=
    if s.holdDirectionSet then
      -- change direction if mouse position crosses the horizontal or
      -- vertical position of the last point
      (if s.wasAboveXAxis != isAboveXAxis then true
       else if s.wasRightOfYAxis != isRightOfYAxis then false
       else s.horizontalFirst,
       s.holdDirectionSet)
    else
      -- no initial direction set --> evaluate delta to last point
      (decide (snapped.x - last.x > snapped.y - last.y), true)
  -- … then the parallel-segment override (lines 212–215):
  -- no parallel line to the old one, if any
  let horizontalFirst : Bool :=
    if (s.lastLineDirection.left && isRightOfYAxis)
        || (s.lastLineDirection.right && !isRightOfYAxis) then false
    else if (s.lastLineDirection.down && isAboveXAxis)
        || (s.lastLineDirection.up && !isAboveXAxis) then true
    else held.1
  { s with
    horizontalFirst := horizontalFirst
    holdDirectionSet := held.2
    wasAboveXAxis := isAboveXAxis
    wasRightOfYAxis := isRightOfYAxis }

/-- `LineDrawer.#clickListener` (lines 97–131); `snapped` is the (already
snapped) click position.  First click fixes the start point; later clicks
commit a point, record the direction of the committed segment in
`#lastLineDirection`, and ignore clicks landing exactly on the previous
point. -/
def clickListener (s : DrawerState) (snapped : Pt) : DrawerState :=
  match s.lastPoint with
  | none => { s with lastPoint := some snapped }
  | some last =>
      if last.x = snapped.x ∧ last.y = snapped.y then s
      else
        let dir : LineDirection :=
          if (s.horizontalFirst || decide (snapped.x = last.x))
              && decide (snapped.y ≠ last.y) then
            -- up or down
            { up := decide (snapped.y < last.y), down := decide (snapped.y > last.y),
              left := false, right := false }
          else
            -- left or right
            { left := decide (snapped.x < last.x), right := decide (snapped.x > last.x),
              up := false, down := false }
        { s with lastPoint := some snapped, lastLineDirection := dir }

/-! ## Selection Engine (`SelectionController`,
src/src/scripts/controllers/selectionController.js)

The marquee / highlight part (`#showSelection`, the `mousemove` handler) is
embedded as a state transformer; components and wires are identified by
`Nat` ids and their geometric test `isInsideSelectionRectangle` — whose
implementation lives outside the given sources — is passed in as a
function of the id and the current marquee rectangle. -/

/-- `SelectionController.SelectionMode` (RESET = 1, ADD = 2, SUB = 3). -/
inductive SelectionMode where
  | RESET
  | ADD
  | SUB
deriving DecidableEq, Repr

/-- The `#selectionRectangle` (position and size attributes). -/
structure SelRect where
  x : ℚ
  y : ℚ
  w : ℚ
  h : ℚ
deriving DecidableEq, Repr

/-- The selection/highlight-relevant state of `SelectionController`:
`#selectionMode`, `#instances`, `#lines` (all objects on the canvas),
`currentlySelectedComponents`, `currentlySelectedLines`,
`#selectionStartPosition`, `#selectionRectangle`, `#currentlyDragging`,
and the bounding-box visibility toggled by
`showBoundingBox`/`hideBoundingBox` on each object. -/
structure SelCtrlState where
  mode : SelectionMode
  instances : List Nat
  lines : List Nat
  selectedComponents : List Nat
  selectedLines : List Nat
  selectionStartPosition : Pt
  rect : SelRect
  currentlyDragging : Bool
  compHighlight : Nat → Bool
  lineHighlight : Nat → Bool

/-- One iteration of the instance loop of `#showSelection` (lines 156–170):
compute the highlight condition for mode RESET/ADD/SUB and toggle the
object's bounding box. -/
def showSelectionCompStep (insideC : Nat → SelRect → Bool) (st : SelCtrlState)
    (inst : Nat) : SelCtrlState :=
  let cond :=
    match st.mode with
    | .RESET => insideC inst st.rect
    | .ADD => insideC inst st.rect || st.selectedComponents.contains inst
    | .SUB => !insideC inst st.rect && st.selectedComponents.contains inst
  { st with compHighlight := Function.update st.compHighlight inst cond }

/-- One iteration of the line loop of `#showSelection` (lines 172–186). -/
def showSelectionLineStep (insideL : Nat → SelRect → Bool) (st : SelCtrlState)
    (line : Nat) : SelCtrlState :=
  let cond :=
    match st.mode with
    | .RESET => insideL line st.rect
    | .ADD => insideL line st.rect || st.selectedLines.contains line
    | .SUB => !insideL line st.rect && st.selectedLines.contains line
  { st with lineHighlight := Function.update st.lineHighlight line cond }

/-- `SelectionController.#showSelection` (lines 154–187): the preview pass
over all components and all wires. -/
def showSelection (insideC insideL : Nat → SelRect → Bool)
    (st : SelCtrlState) : SelCtrlState :=
  let st1 := st.instances.foldl (showSelectionCompStep insideC) st
  st1.lines.foldl (showSelectionLineStep insideL) st1

/-- The `mousemove` handler registered in the constructor (lines 106–128):
while dragging, resize the marquee rectangle to span the start
position and the cursor (normalizing negative extents by shifting the
origin), then run the `#showSelection` preview pass. -/
def selectionMousemove (insideC insideL : Nat → SelRect → Bool)
    (st : SelCtrlState) (pt : Pt) : SelCtrlState :=
  if st.currentlyDragging then
    let dx := pt.x - st.selectionStartPosition.x
    let dy := pt.y - st.selectionStartPosition.y
    let moveX := if dx < 0 then st.selectionStartPosition.x + dx else st.selectionStartPosition.x
    let dx := if dx < 0 then -dx else dx
    let moveY := if dy < 0 then st.selectionStartPosition.y + dy else st.selectionStartPosition.y
    let dy := if dy < 0 then -dy else dy
    showSelection insideC insideL { st with rect := ⟨moveX, moveY, dx, dy⟩ }
  else st

/-! ### Group transforms

`rotateSelection`, `flipSelection`, `moveSelectionRel`, `moveSelectionTo`
(lines 375–467) act on the selected objects through their methods
(`rotate`, `flip`, `moveRel`, `moveTo`, `recalculateSnappingPoints`), whose
implementations live outside the given sources.  The transforms are
therefore embedded as the exact sequence of such calls they emit; per-object
geometry that the controller itself reads (`bbox()`, `getAnchorPoint()`) is
part of the object model. -/

/-- Subtraction of points (`SVG.Point.minus`). -/
def Pt.sub (a b : Pt) : Pt := ⟨a.x - b.x, a.y - b.y⟩

/-- An svg.js bounding box (`SVG.Box`): origin and extent. -/
structure Box where
  x : ℚ
  y : ℚ
  w : ℚ
  h : ℚ
deriving DecidableEq, Repr

/-- `SVG.Box.cx`: x coordinate of the box center. -/
def Box.cx (b : Box) : ℚ := b.x + b.w / 2

/-- `SVG.Box.cy`: y coordinate of the box center. -/
def Box.cy (b : Box) : ℚ := b.y + b.h / 2

/-- `SVG.Box.merge`: smallest box containing both boxes. -/
def Box.merge (b1 b2 : Box) : Box :=
  let x := min b1.x b2.x
  let y := min b1.y b2.y
  ⟨x, y, max (b1.x + b1.w) (b2.x + b2.w) - x, max (b1.y + b1.h) (b2.y + b2.h) - y⟩

/-- A selected wire, as far as the group transforms read it: its bounding
box. -/
structure LineObj where
  bbox : Box
deriving DecidableEq, Repr

/-- A selected component instance, as far as the group transforms read it:
its bounding box, its `getAnchorPoint()`, and whether it is a
`NodeComponentInstance` (which gets `recalculateSnappingPoints()` calls). -/
structure CompObj where
  bbox : Box
  anchorPoint : Pt
  isNode : Bool
deriving DecidableEq, Repr

/-- The current selection: `currentlySelectedLines` and
`currentlySelectedComponents`. -/
structure Selection where
  lines : List LineObj
  comps : List CompObj
deriving DecidableEq, Repr

/-- `SelectionController.hasSelection` (lines 487–489). -/
def hasSelection (sel : Selection) : Bool :=
  sel.comps.length > 0 || sel.lines.length > 0

/-- `SelectionController.getOverallBoundingBox` (lines 351–369): merge the
boxes of all selected lines, then of all selected components; `none` is the
JavaScript `null` result for an empty selection. -/
def getOverallBoundingBox (sel : Selection) : Option Box :=
  let b1 := sel.lines.foldl
    (fun acc l => match acc with
      | none => some l.bbox
      | some b => some (b.merge l.bbox)) none
  sel.comps.foldl
    (fun acc c => match acc with
      | none => some c.bbox
      | some b => some (b.merge c.bbox)) b1

/-- A call emitted by a group transform to a selected object.  The index of
the object in its selection list identifies the receiver implicitly via the
emission order. -/
inductive TransformOp where
  | lineRotate (angleDeg : ℚ)
  | lineFlip (horizontal : Bool)
  | lineMoveRel (delta : Pt)
  | compRotate (angleDeg : ℚ)
  | compFlip (horizontal : Bool)
  | compMoveRel (delta : Pt)
  | compMoveTo (p : Pt)
  | recalcSnapPoints
deriving DecidableEq, Repr

/-- Loop body of `rotateSelection` for a wire (lines 387–392). `rotatePt`
is the external `SVG.Point.rotate(angleDeg, pivot, false)`. -/
def rotateLineOps (rotatePt : ℚ → Pt → Pt → Pt) (angleDeg : ℚ)
    (overallCenter : Pt) (l : LineObj) : List TransformOp :=
  let center : Pt := ⟨l.bbox.cx, l.bbox.cy⟩
  [.lineRotate angleDeg, .lineMoveRel ((rotatePt angleDeg overallCenter center).sub center)]

/-- Loop body of `rotateSelection` for a component (lines 394–404). -/
def rotateCompOps (rotatePt : ℚ → Pt → Pt → Pt) (angleDeg : ℚ)
    (overallCenter : Pt) (c : CompObj) : List TransformOp :=
  [.compRotate angleDeg, .compMoveTo (rotatePt angleDeg overallCenter c.anchorPoint)]
    ++ if c.isNode then [.recalcSnapPoints] else []

/-- `SelectionController.rotateSelection` (lines 375–405). -/
def rotateSelection (rotatePt : ℚ → Pt → Pt → Pt) (sel : Selection)
    (angleDeg : ℚ) : List TransformOp :=
  if ¬hasSelection sel then [] else
  match getOverallBoundingBox sel with
  | none => [] -- unreachable: `hasSelection` guarantees a bounding box
  | some bb =>
      (sel.lines.map (rotateLineOps rotatePt angleDeg ⟨bb.cx, bb.cy⟩)).flatten
        ++ (sel.comps.map (rotateCompOps rotatePt angleDeg ⟨bb.cx, bb.cy⟩)).flatten

/-- Loop body of `flipSelection` for a wire (lines 426–431): flip in place,
then translate by the axis-selected doubled offset
(`flipX = horizontal ? 0 : -2`, `flipY = horizontal ? -2 : 0`). -/
def flipLineOps (horizontal : Bool) (overallCenter : Pt) (l : LineObj) :
    List TransformOp :=
  let flipX : ℚ := if horizontal then 0 else -2
  let flipY : ℚ := if horizontal then -2 else 0
  let diffToCenter := Pt.sub ⟨l.bbox.cx, l.bbox.cy⟩ overallCenter
  [.lineFlip horizontal, .lineMoveRel ⟨diffToCenter.x * flipX, diffToCenter.y * flipY⟩]

/-- Loop body of `flipSelection` for a component (lines 433–443). -/
def flipCompOps (horizontal : Bool) (overallCenter : Pt) (c : CompObj) :
    List TransformOp :=
  let flipX : ℚ := if horizontal then 0 else -2
  let flipY : ℚ := if horizontal then -2 else 0
  let diffToCenter := Pt.sub c.anchorPoint overallCenter
  [.compFlip horizontal, .compMoveRel ⟨diffToCenter.x * flipX, diffToCenter.y * flipY⟩]
    ++ if c.isNode then [.recalcSnapPoints] else []

/-- `SelectionController.flipSelection` (lines 411–444). -/
def flipSelection (sel : Selection) (horizontal : Bool) : List TransformOp :=
  if ¬hasSelection sel then [] else
  match getOverallBoundingBox sel with
  | none => [] -- unreachable: `hasSelection` guarantees a bounding box
  | some bb =>
      (sel.lines.map (flipLineOps horizontal ⟨bb.cx, bb.cy⟩)).flatten
        ++ (sel.comps.map (flipCompOps horizontal ⟨bb.cx, bb.cy⟩)).flatten

/-- `SelectionController.moveSelectionRel` (lines 450–457): components
first, then lines. -/
def moveSelectionRel (sel : Selection) (delta : Pt) : List TransformOp :=
  sel.comps.map (fun _ => .compMoveRel delta)
    ++ sel.lines.map (fun _ => .lineMoveRel delta)

/-- `SelectionController.moveSelectionTo` (lines 463–467).  The source
reads `overallBBox.cx` without a null check; on an empty selection
`getOverallBoundingBox` returns `null` and the access throws a `TypeError`,
embedded here as `Except.error`. -/
def moveSelectionTo (sel : Selection) (position : Pt) :
    Except Unit (List TransformOp) :=
  match getOverallBoundingBox sel with
  | none => .error ()
  | some bb => .ok (moveSelectionRel sel (position.sub ⟨bb.cx, bb.cy⟩))

/-! ## Anchor model (`ComponentSymbol`, src/unnamed/part_000)

DOM elements are modelled by their attribute maps (`getAttribute` returning
`Option String`, `none` for JavaScript `null`).  `SVG.Number.ensureInPx` —
implemented outside the given sources — converts numbers (already in px)
to themselves and unit-suffixed strings to px; it is passed in as the
abstract function `px` for the string case. -/

/-- JavaScript string truthiness: `null`/`undefined` and `""` are falsy. -/
def strTruthy : Option String → Bool
  | none => false
  | some s => !s.isEmpty

/-- The value of an anchor coordinate after the parsing step of
`#parseAnchor`: a number, or a string passed through unconverted. -/
inductive JSVal where
  | num (q : ℚ)
  | str (s : String)
deriving DecidableEq, Repr

/-- The `numberRegEx` of `#parseAnchor` (line 161),
`/^(\d*\.)?\d+$/` — "1", ".1", "1.1"; but not "1.". -/
def numberRegexTest (s : String) : Bool :=
  match s.toList.splitOn '.' with
  | [ds] => !ds.isEmpty && ds.all Char.isDigit
  | [ds1, ds2] => ds1.all Char.isDigit && (!ds2.isEmpty && ds2.all Char.isDigit)
  | _ => false

/-- Value of a digit string read in base 10. -/
def digitsToNat (ds : List Char) : ℕ :=
  ds.foldl (fun n c => 10 * n + (c.toNat - '0'.toNat)) 0

/-- `Number.parseFloat` on a string accepted by `numberRegexTest`
(exact, since such strings are plain decimal literals). -/
def parseDecimal (s : String) : ℚ :=
  match s.toList.splitOn '.' with
  | [ds] => digitsToNat ds
  | [ds1, ds2] => digitsToNat ds1 + (digitsToNat ds2 : ℚ) / 10 ^ ds2.length
  | _ => 0

/-- The attributes of an anchor/pin/textPosition element read by
`#parseAnchor`. -/
structure AnchorElem where
  anchorName : Option String
  anchorNameLower : Option String
  xAttr : Option String
  yAttr : Option String
  isDefaultAttr : Option String
  isDefaultAttrLower : Option String
deriving DecidableEq, Repr

/-- A parsed `TikZAnchor`. -/
structure TikZAnchor where
  name : Option String
  x : JSVal
  y : JSVal
  isDefault : Bool
  point : Pt
deriving DecidableEq, Repr

/-- `anchorElement.getAttribute("x") ?? 0` followed by the regex test and
`Number.parseFloat` (lines 165, 169): an absent attribute is the number 0,
a numeric string is parsed, any other string is stored raw. -/
def anchorCoordVal (attr : Option String) : JSVal :=
  match attr with
  | none => .num 0
  | some s => if numberRegexTest s then .num (parseDecimal s) else .str s

/-- `SVG.Number.ensureInPx` applied to an anchor coordinate: a number is
already in px; the conversion of a non-numeric (unit-suffixed) string is
the external function `px`. -/
def ensureInPx (px : String → ℚ) : JSVal → ℚ
  | .num q => q
  | .str s => px s

/-- `ComponentSymbol.#parseAnchor` (lines 160–181); `mid` is the symbol's
`this.mid`.  The anchor point is
`(mid.x + ensureInPx x, mid.y − ensureInPx y)` (tikz y direction ≠ svg y
direction). -/
def parseAnchor (px : String → ℚ) (mid : Pt) (e : AnchorElem) : TikZAnchor :=
  let name := if strTruthy e.anchorName then e.anchorName
    else if strTruthy e.anchorNameLower then e.anchorNameLower else none
  let xv := anchorCoordVal e.xAttr
  let yv := anchorCoordVal e.yAttr
  let isDefaultRaw : Option String :=
    if strTruthy e.isDefaultAttr then e.isDefaultAttr
    else if strTruthy e.isDefaultAttrLower then e.isDefaultAttrLower else none
  let isDefault :=
    match isDefaultRaw with
    | none => false
    | some s => s = "true"
  { name := name, x := xv, y := yv, isDefault := isDefault,
    point := ⟨mid.x + ensureInPx px xv, mid.y - ensureInPx px yv⟩ }

/-- The `componentinformation` metadata element: its attributes and the
`pins`/`additionalAnchors`/`textPosition` child tags. -/
structure CompInfoElem where
  typeAttr : Option String
  tikzNameAttr : Option String
  displayNameAttr : Option String
  shapeNameAttr : Option String
  groupNameAttr : Option String
  refX : Option String
  refY : Option String
  viewBoxAttr : Option String
  pins : List AnchorElem
  additionalAnchors : List AnchorElem
  textPosition : Option AnchorElem
deriving DecidableEq, Repr

/-- The `<symbol>` element as read by `getBaseInformation`: the optional
`<metadata>` child holding the optional `componentinformation` element, and
the symbol's own `viewBox` attribute. -/
structure SymbolElem where
  svgMetadataElement : Option (Option CompInfoElem)
  viewBoxAttr : Option String
deriving DecidableEq, Repr

/-- The result of `ComponentSymbol.getBaseInformation` (the fields the
constructor reads). -/
structure SymbolBaseInformation where
  hasSvgMetadataElement : Bool
  componentInformation : Option CompInfoElem
  isNode : Bool
  isPath : Bool
  displayName : Option String
  tikzName : Option String
  shapeName : Option String
  groupName : Option String
  mid : Pt
deriving DecidableEq, Repr

/-- `ComponentSymbol.getBaseInformation` (lines 107–150):
`displayName` falls back to `tikzName` when the `displayName` attribute is
absent. -/
def getBaseInformation (px : String → ℚ) (e : SymbolElem) : SymbolBaseInformation :=
  let compInfo : Option CompInfoElem := e.svgMetadataElement.bind id
  let tikzName := compInfo.bind (·.tikzNameAttr)
  let displayName := (compInfo.bind (·.displayNameAttr)).or tikzName
  { hasSvgMetadataElement := e.svgMetadataElement.isSome
    componentInformation := compInfo
    isNode := (compInfo.bind (·.typeAttr)) = some "node"
    isPath := (compInfo.bind (·.typeAttr)) = some "path"
    displayName := displayName
    tikzName := tikzName
    shapeName := compInfo.bind (·.shapeNameAttr)
    groupName := compInfo.bind (·.groupNameAttr)
    mid := ⟨if strTruthy (compInfo.bind (·.refX)) then px ((compInfo.bind (·.refX)).getD "")
            else 0,
            if strTruthy (compInfo.bind (·.refY)) then px ((compInfo.bind (·.refY)).getD "")
            else 0⟩ }

/-- The fields of a constructed `ComponentSymbol`. -/
structure ComponentSymbolModel where
  displayName : String
  tikzName : String
  groupName : Option String
  mid : Pt
  pins : List TikZAnchor
  additionalAnchors : List TikZAnchor
  textAnchor : Option TikZAnchor
deriving DecidableEq, Repr

/-- The `ComponentSymbol` constructor (lines 65–100) on a symbol element:
throws `"Missing metadata for creating the component"` when the metadata
element, the display name, or the tikz name is missing (JavaScript-falsy);
otherwise parses pins, additional anchors and the text anchor.  Modelled in
`Except` with the error message as the thrown value. -/
def constructComponentSymbol (px : String → ℚ) (e : SymbolElem) :
    Except String ComponentSymbolModel :=
  let baseInformation := getBaseInformation px e
  if ¬baseInformation.hasSvgMetadataElement
      ∨ ¬strTruthy baseInformation.displayName
      ∨ ¬strTruthy baseInformation.tikzName then
    .error "Missing metadata for creating the component"
  else
    let mid := baseInformation.mid
    let pinArray := (baseInformation.componentInformation.map (·.pins)).getD []
    let additionalAnchorArray :=
      (baseInformation.componentInformation.map (·.additionalAnchors)).getD []
    let textPosition := baseInformation.componentInformation.bind (·.textPosition)
    .ok
      { displayName := (baseInformation.displayName).getD ""
        tikzName := (baseInformation.tikzName).getD ""
        groupName := baseInformation.groupName
        mid := mid
        pins := pinArray.map (parseAnchor px mid)
        additionalAnchors := additionalAnchorArray.map (parseAnchor px mid)
        textAnchor := textPosition.map (parseAnchor px mid) }

/-! ## Snap Point (`SnapPoint`, src/unnamed/part_002)

Coordinates and angles are modelled over `ℝ` because the source computes
with `Math.sin`, `Math.cos` and `Math.PI`; `Number.isInteger` becomes the
exact integrality test `⌊q⌋ = q`. -/

section
open Classical

/-- The sine/cosine pair chosen by `SnapPoint.recalculate` (lines 69–81):
when `quadrant` (computed as `angle / 90` in degree mode and as
`angle * 180 / π` in radian mode) is an integer, look `sin`/`cos` up in the
tables `[0, 1, 0, -1]` / `[1, 0, -1, 0]` at index `quadrant % 4`
(normalised to `0…3`); otherwise fall back to `Math.sin`/`Math.cos`. -/
noncomputable def recalcSinCos (inDegree : Bool) (angle : ℝ) : ℝ × ℝ :=
  let quadrant : ℝ := if inDegree then angle / 90 else angle * 180 / Real.pi
  if (⌊quadrant⌋ : ℝ) = quadrant then
    let q0 : ℤ := ⌊quadrant⌋
    let q1 : ℤ := Int.tmod q0 4 -- JavaScript `%` keeps the dividend's sign
    let q : ℤ := if q1 < 0 then q1 + 4 else q1
    ((if q = 1 then 1 else if q = 3 then -1 else 0 : ℝ),
     (if q = 0 then 1 else if q = 2 then -1 else 0 : ℝ))
  else
    (Real.sin angle, Real.cos angle)

end

/-- The position assigned by `SnapPoint.recalculate` (lines 92–93) from the
stored mid point, relative position and angle. -/
noncomputable def recalcPosition (inDegree : Bool) (angle : ℝ)
    (relPosition midPoint : ℝ × ℝ) : ℝ × ℝ :=
  let sc := recalcSinCos inDegree angle
  (sc.2 * relPosition.1 + sc.1 * relPosition.2 + midPoint.1,
   -sc.1 * relPosition.1 + sc.2 * relPosition.2 + midPoint.2)

/-- The clockwise (screen-coordinate) rotation the `sin`/`cos` fallback
branch of `recalculate` realizes; `position = rotateCW angle relPosition
+ midPoint` is the documented invariant of a `SnapPoint`. -/
noncomputable def rotateCW (angle : ℝ) (p : ℝ × ℝ) : ℝ × ℝ :=
  (Real.cos angle * p.1 + Real.sin angle * p.2,
   -Real.sin angle * p.1 + Real.cos angle * p.2)

/-- The state of a `SnapPoint`: `#instance` (of which only the `nodeName`
is ever read), `#anchorName`, `#midPoint`, `#relPosition`, `#angle`,
`#inDegree`, the inherited `x`/`y` position, and the registered
`#changeListeners` (opaque callbacks, modelled by their count). -/
structure SnapPointState where
  ownerNodeName : Option String
  anchorName : Option String
  midPoint : ℝ × ℝ
  relPosition : ℝ × ℝ
  angle : ℝ
  inDegree : Bool
  x : ℝ
  y : ℝ
  listeners : ℕ

/-- One call of a `SnapPointChangeListener`: the arguments
`(oldX, oldY, isDeleted)` it receives. -/
structure Notification where
  oldX : ℝ
  oldY : ℝ
  isDeleted : Bool

/-- `SnapPoint.recalculate(newMid, angle)` (lines 65–96): a truthy `newMid`
replaces the stored mid point, a numeric `angle` (`angle || angle === 0`)
replaces the stored angle, the position is recomputed from the stored
state, and every registered listener is notified with the old coordinates
and `isDeleted = false`. -/
noncomputable def SnapPointState.recalculate (s : SnapPointState)
    (newMid : Option (ℝ × ℝ)) (angle : Option ℝ) :
    SnapPointState × List Notification :=
  let s1 := match newMid with
    | some m => { s with midPoint := m }
    | none => s
  let s2 := match angle with
    | some a => { s1 with angle := a }
    | none => s1
  let pos := recalcPosition s2.inDegree s2.angle s2.relPosition s2.midPoint
  ({ s2 with x := pos.1, y := pos.2 },
   List.replicate s.listeners ⟨s.x, s.y, false⟩)

/-- `SnapPoint.removeInstance()` (lines 101–105): notify every listener
with `isDeleted = true`, then release `#instance` and `#anchorName`.  The
listener list and the geometric state are left untouched. -/
noncomputable def SnapPointState.removeInstance (s : SnapPointState) :
    SnapPointState × List Notification :=
  ({ s with ownerNodeName := none, anchorName := none },
   List.replicate s.listeners ⟨s.x, s.y, true⟩)

/-! ## Concrete instances used by counterexamples and witnesses -/

/-- A selection of one wire (bounding box `(0,0)–(2,2)`) and one non-node
component (bounding box `(4,6)–(6,8)`, anchor point `(5,7)`); its overall
bounding box is `(0,0)–(6,8)` with center `(3,4)`. -/
def flipExampleSelection : Selection :=
  ⟨[⟨⟨0, 0, 2, 2⟩⟩], [⟨⟨4, 6, 2, 2⟩, ⟨5, 7⟩, false⟩]⟩

/-- An anchor element `{anchorName:"G", x:"2", y:"3"}`. -/
def anchorGElem : AnchorElem :=
  ⟨some "G", none, some "2", some "3", none, none⟩

/-- A sample snap point in degree mode with two registered listeners. -/
noncomputable def snapExample : SnapPointState :=
  { ownerNodeName := some "N", anchorName := some "G", midPoint := (0, 0),
    relPosition := (1, 1), angle := 0, inDegree := true, x := 0, y := 0,
    listeners := 2 }

/-! ## Theorems -/

/-- C2 (counterexample): the first-move heuristic does **not** compare
absolute deltas.  With the start point fixed at `(0,0)` and the first move
to `(-5,1)`, the absolute horizontal delta `5` exceeds the absolute
vertical delta `1`, yet the router chooses vertical-first
(`horizontalFirst = false`), because line 204 of lineDrawer.js compares the
signed deltas `-5 > 1`. -/
theorem firstMove_not_absolute_delta :
    (moveListener (clickListener DrawerState.reset ⟨0, 0⟩) ⟨0, 0⟩ ⟨-5, 1⟩).horizontalFirst = false
      ∧ |(-5 : ℚ) - 0| > |(1 : ℚ) - 0| := by
  constructor
  · norm_num [moveListener, clickListener, DrawerState.reset]
  · norm_num

/-- C2 (amended): on the very first pointer move after the start point is
fixed (no direction lock set, no previous segment direction recorded), the
router chooses horizontal-first exactly when the **signed** horizontal
delta from the last fixed point exceeds the **signed** vertical delta;
in particular start `(0,0)` and first move to `(5,1)` locks
horizontal-first. -/
theorem firstMove_signed_delta (s : DrawerState) (last snapped : Pt)
    (hhold : s.holdDirectionSet = false)
    (hdir : s.lastLineDirection = ⟨false, false, false, false⟩) :
    (moveListener s last snapped).horizontalFirst
      = decide (snapped.x - last.x > snapped.y - last.y) := by
  simp [moveListener, hhold, hdir]

/-- C2 witness: start `(0,0)`, first move to `(5,1)` locks
horizontal-first. -/
theorem firstMove_signed_delta_witness :
    (moveListener (clickListener DrawerState.reset ⟨0, 0⟩) ⟨0, 0⟩ ⟨5, 1⟩).horizontalFirst = true := by
  have h := firstMove_signed_delta (clickListener DrawerState.reset ⟨0, 0⟩)
    ⟨0, 0⟩ ⟨5, 1⟩ (by norm_num [clickListener, DrawerState.reset])
    (by norm_num [clickListener, DrawerState.reset])
  rw [h]; norm_num

/-- C3 (counterexample): a new provisional segment **can** be routed
horizontal-first although the preceding committed segment's recorded
direction is `right`.  Reachable trace: click `(0,0)`, move to `(5,1)`
(locks horizontal-first), click `(5,0)` (records direction `right`), move
to `(10,1)`: the cursor stays in the same quadrant and strictly to the
right of the last point, so the parallel-segment rule does not fire and the
routing stays horizontal-first. -/
theorem parallelRule_not_unconditional :
    (clickListener (moveListener (clickListener DrawerState.reset ⟨0, 0⟩) ⟨0, 0⟩ ⟨5, 1⟩)
        ⟨5, 0⟩).lastLineDirection = ⟨false, true, false, false⟩
    ∧ (moveListener
        (clickListener (moveListener (clickListener DrawerState.reset ⟨0, 0⟩) ⟨0, 0⟩ ⟨5, 1⟩) ⟨5, 0⟩)
        ⟨5, 0⟩ ⟨10, 1⟩).horizontalFirst = true := by
  constructor
  · norm_num [moveListener, clickListener, DrawerState.reset]
  · norm_num [moveListener, clickListener, DrawerState.reset]

/-- C3 (amended): the anti-parallel rule of `#moveListener`
(lines 212–215) is conditional on the cursor's side: a move is forced
vertical-first exactly when the previous direction was `left` and the
cursor is strictly right of the last fixed point, or `right` and the
cursor is not strictly right of it (the horizontal-first segment would
backtrack over the previous one); with lower precedence, a move is forced
horizontal-first when the previous direction was `down` and the cursor is
strictly above the last point, or `up` and the cursor is not strictly
above it. -/
theorem parallelRule_conditional :
    (∀ (s : DrawerState) (last snapped : Pt),
      ((s.lastLineDirection.left = true ∧ snapped.x > last.x)
        ∨ (s.lastLineDirection.right = true ∧ ¬snapped.x > last.x)) →
      (moveListener s last snapped).horizontalFirst = false)
    ∧ (∀ (s : DrawerState) (last snapped : Pt),
      ¬((s.lastLineDirection.left = true ∧ snapped.x > last.x)
        ∨ (s.lastLineDirection.right = true ∧ ¬snapped.x > last.x)) →
      ((s.lastLineDirection.down = true ∧ snapped.y < last.y)
        ∨ (s.lastLineDirection.up = true ∧ ¬snapped.y < last.y)) →
      (moveListener s last snapped).horizontalFirst = true) := by
  constructor
  · intro s last snapped h
    simp only [moveListener]
    rcases h with ⟨hl, hx⟩ | ⟨hr, hx⟩
    · simp [hl, hx]
    · simp [hr, hx]
  · intro s last snapped h1 h2
    push_neg at h1
    obtain ⟨hL, hR⟩ := h1
    simp only [moveListener]
    have hC : (s.lastLineDirection.left && decide (snapped.x > last.x)
        || (s.lastLineDirection.right && !decide (snapped.x > last.x))) = false := by
      by_cases hx : snapped.x > last.x
      · cases hlv : s.lastLineDirection.left
        · simp [hx, hlv]
        · exact absurd hx (not_lt.mpr (hL hlv))
      · cases hrv : s.lastLineDirection.right
        · simp [hx, hrv]
        · exact absurd (hR hrv) hx
    have hD : (s.lastLineDirection.down && decide (snapped.y < last.y)
        || (s.lastLineDirection.up && !decide (snapped.y < last.y))) = true := by
      rcases h2 with ⟨hd, hy⟩ | ⟨hu, hy⟩
      · simp [hd, hy]
      · simp [hu, hy]
    simp [hC, hD]

/-- C3 witness: with previous direction `right` and the cursor not
strictly right of the last point the route is forced vertical-first, and
with previous direction `down` and the cursor above the last point it is
forced horizontal-first. -/
theorem parallelRule_conditional_witness :
    (moveListener
      { horizontalFirst := true, holdDirectionSet := true,
        lastLineDirection := ⟨false, true, false, false⟩,
        wasAboveXAxis := false, wasRightOfYAxis := true,
        lastPoint := some ⟨5, 0⟩ } ⟨5, 0⟩ ⟨5, 4⟩).horizontalFirst = false
    ∧ (moveListener
      { horizontalFirst := false, holdDirectionSet := true,
        lastLineDirection := ⟨false, false, true, false⟩,
        wasAboveXAxis := false, wasRightOfYAxis := true,
        lastPoint := some ⟨5, 4⟩ } ⟨5, 4⟩ ⟨6, 1⟩).horizontalFirst = true := by
  constructor
  · exact parallelRule_conditional.1 _ ⟨5, 0⟩ ⟨5, 4⟩ (Or.inr ⟨rfl, by norm_num⟩)
  · exact parallelRule_conditional.2 _ ⟨5, 4⟩ ⟨6, 1⟩
      (by rintro (⟨h, -⟩ | ⟨h, -⟩) <;> exact Bool.noConfusion h)
      (Or.inl ⟨rfl, by norm_num⟩)

/-- C4 (counterexample): with `horizontal = true`, `flipSelection` emits,
for the wire of `flipExampleSelection` (center `(1,1)`, shared pivot
`(3,4)`), the translation `(0, 6)` — the **y**-offset is doubled and
negated and the x-offset untouched, not the other way around as claimed
(`flipX = horizontal ? 0 : -2`, `flipY = horizontal ? -2 : 0`,
lines 420–421). -/
theorem flipSelection_axis_swapped :
    flipSelection flipExampleSelection true
      = [.lineFlip true, .lineMoveRel ⟨0, 6⟩, .compFlip true, .compMoveRel ⟨0, -6⟩]
    ∧ (Pt.mk 0 6).y ≠ 0 := by
  constructor
  · norm_num [flipSelection, flipExampleSelection, hasSelection, getOverallBoundingBox,
      Box.merge, Box.cx, Box.cy, flipLineOps, flipCompOps, Pt.sub]
  · norm_num

/-- Helper for the flip-translation theorem: a selection with an overall
bounding box is nonempty. -/
theorem hasSelection_of_bbox (sel : Selection) (bb : Box)
    (h : getOverallBoundingBox sel = some bb) : hasSelection sel = true := by
  rcases sel with ⟨lines, comps⟩
  cases lines with
  | cons _ _ => simp [hasSelection]
  | nil =>
      cases comps with
      | cons _ _ => simp [hasSelection]
      | nil => simp [getOverallBoundingBox] at h

/-- C4 (amended): `flipSelection` with `horizontal = true` reflects each
selected object in place and then translates it by the doubled and negated
**y**-offset only (x-offset untouched) from the shared pivot (the overall
bounding-box center) to the object's own center; with `horizontal = false`
it doubles and negates only the x-offset.  Wire centers are their
bounding-box centers, component centers their anchor points. -/
theorem flipSelection_translation (sel : Selection) (hor : Bool) (bb : Box)
    (hbb : getOverallBoundingBox sel = some bb) :
    (∀ l ∈ sel.lines,
      TransformOp.lineMoveRel ⟨(l.bbox.cx - bb.cx) * (if hor then 0 else -2),
        (l.bbox.cy - bb.cy) * (if hor then -2 else 0)⟩ ∈ flipSelection sel hor)
    ∧ (∀ c ∈ sel.comps,
      TransformOp.compMoveRel ⟨(c.anchorPoint.x - bb.cx) * (if hor then 0 else -2),
        (c.anchorPoint.y - bb.cy) * (if hor then -2 else 0)⟩ ∈ flipSelection sel hor) := by
  have hsel := hasSelection_of_bbox sel bb hbb
  constructor
  · intro l hl
    simp only [flipSelection, hsel, hbb]
    refine List.mem_append_left _ (List.mem_flatten.mpr
      ⟨flipLineOps hor ⟨bb.cx, bb.cy⟩ l, List.mem_map_of_mem _ hl, ?_⟩)
    simp [flipLineOps, Pt.sub]
  · intro c hc
    simp only [flipSelection, hsel, hbb]
    refine List.mem_append_right _ (List.mem_flatten.mpr
      ⟨flipCompOps hor ⟨bb.cx, bb.cy⟩ c, List.mem_map_of_mem _ hc, ?_⟩)
    simp [flipCompOps, Pt.sub]

/-- C4 witness: in `flipExampleSelection` (pivot `(3,4)`), a horizontal
flip translates the wire (center `(1,1)`) by `(0, 6)` and the component
(anchor point `(5,7)`) by `(0, -6)`. -/
theorem flipSelection_translation_witness :
    TransformOp.lineMoveRel ⟨0, 6⟩ ∈ flipSelection flipExampleSelection true
    ∧ TransformOp.compMoveRel ⟨0, -6⟩ ∈ flipSelection flipExampleSelection true := by
  have h := flipSelection_translation flipExampleSelection true ⟨0, 0, 6, 8⟩
    (by norm_num [getOverallBoundingBox, flipExampleSelection, Box.merge])
  constructor
  · have h1 := h.1 ⟨⟨0, 0, 2, 2⟩⟩ (by simp [flipExampleSelection])
    norm_num [Box.cx, Box.cy] at h1
    exact h1
  · have h2 := h.2 ⟨⟨4, 6, 2, 2⟩, ⟨5, 7⟩, false⟩ (by simp [flipExampleSelection])
    norm_num [Box.cx, Box.cy] at h2
    exact h2

/-- C5: with an empty selection, `rotateSelection`, `flipSelection` and
`moveSelectionRel` emit no operation at all, but `moveSelectionTo` is
**not** a silent no-op: `getOverallBoundingBox` returns `null` and line
465 reads `overallBBox.cx` without a null check, throwing a `TypeError`
(embedded as `Except.error`). -/
theorem emptySelection_transforms :
    rotateSelection (fun _ _ p => p) ⟨[], []⟩ 90 = []
    ∧ flipSelection ⟨[], []⟩ true = []
    ∧ flipSelection ⟨[], []⟩ false = []
    ∧ moveSelectionRel ⟨[], []⟩ ⟨1, 1⟩ = []
    ∧ moveSelectionTo ⟨[], []⟩ ⟨3, 4⟩ = Except.error () := by
  refine ⟨?_, ?_, ?_, rfl, rfl⟩ <;> simp [rotateSelection, flipSelection, hasSelection]

/-- Helper for C9: the component loop of `#showSelection` changes only the
component highlight state. -/
theorem foldlCompStep_frame (insideC : Nat → SelRect → Bool) :
    ∀ (l : List Nat) (st : SelCtrlState),
      (l.foldl (showSelectionCompStep insideC) st).mode = st.mode
      ∧ (l.foldl (showSelectionCompStep insideC) st).instances = st.instances
      ∧ (l.foldl (showSelectionCompStep insideC) st).lines = st.lines
      ∧ (l.foldl (showSelectionCompStep insideC) st).selectedComponents = st.selectedComponents
      ∧ (l.foldl (showSelectionCompStep insideC) st).selectedLines = st.selectedLines
      ∧ (l.foldl (showSelectionCompStep insideC) st).selectionStartPosition
          = st.selectionStartPosition
      ∧ (l.foldl (showSelectionCompStep insideC) st).rect = st.rect
      ∧ (l.foldl (showSelectionCompStep insideC) st).currentlyDragging = st.currentlyDragging
      ∧ (l.foldl (showSelectionCompStep insideC) st).lineHighlight = st.lineHighlight
  | [], st => by simp
  | i :: l, st => by
      simp only [List.foldl_cons]
      have ih := foldlCompStep_frame insideC l (showSelectionCompStep insideC st i)
      simpa [showSelectionCompStep] using ih

/-- Helper for C9: the line loop of `#showSelection` changes only the line
highlight state. -/
theorem foldlLineStep_frame (insideL : Nat → SelRect → Bool) :
    ∀ (l : List Nat) (st : SelCtrlState),
      (l.foldl (showSelectionLineStep insideL) st).mode = st.mode
      ∧ (l.foldl (showSelectionLineStep insideL) st).instances = st.instances
      ∧ (l.foldl (showSelectionLineStep insideL) st).lines = st.lines
      ∧ (l.foldl (showSelectionLineStep insideL) st).selectedComponents = st.selectedComponents
      ∧ (l.foldl (showSelectionLineStep insideL) st).selectedLines = st.selectedLines
      ∧ (l.foldl (showSelectionLineStep insideL) st).selectionStartPosition
          = st.selectionStartPosition
      ∧ (l.foldl (showSelectionLineStep insideL) st).rect = st.rect
      ∧ (l.foldl (showSelectionLineStep insideL) st).currentlyDragging = st.currentlyDragging
      ∧ (l.foldl (showSelectionLineStep insideL) st).compHighlight = st.compHighlight
  | [], st => by simp
  | i :: l, st => by
      simp only [List.foldl_cons]
      have ih := foldlLineStep_frame insideL l (showSelectionLineStep insideL st i)
      simpa [showSelectionLineStep] using ih

/-- Helper for C9: `#showSelection` leaves everything but the two
highlight maps unchanged. -/
theorem showSelection_frame (insideC insideL : Nat → SelRect → Bool)
    (st : SelCtrlState) :
    (showSelection insideC insideL st).selectedComponents = st.selectedComponents
    ∧ (showSelection insideC insideL st).selectedLines = st.selectedLines
    ∧ (showSelection insideC insideL st).mode = st.mode
    ∧ (showSelection insideC insideL st).instances = st.instances
    ∧ (showSelection insideC insideL st).lines = st.lines
    ∧ (showSelection insideC insideL st).rect = st.rect := by
  obtain ⟨c1m, c1i, c1l, c1sc, c1sl, c1sp, c1r, c1d, c1lh⟩ :=
    foldlCompStep_frame insideC st.instances st
  obtain ⟨c2m, c2i, c2l, c2sc, c2sl, c2sp, c2r, c2d, c2ch⟩ :=
    foldlLineStep_frame insideL
      ((st.instances.foldl (showSelectionCompStep insideC) st).lines)
      (st.instances.foldl (showSelectionCompStep insideC) st)
  exact ⟨c2sc.trans c1sc, c2sl.trans c1sl, c2m.trans c1m, c2i.trans c1i,
    c2l.trans c1l, c2r.trans c1r⟩

/-- C9: the marquee preview pass run on every pointer move while dragging
(`#showSelection`, invoked from the `mousemove` handler) never mutates the
committed selection collections `currentlySelectedComponents` /
`currentlySelectedLines`; it also leaves the mode, the object collections
and the marquee rectangle untouched — only bounding-box highlight state
changes. -/
theorem marqueePreview_preserves_selection (insideC insideL : Nat → SelRect → Bool)
    (st : SelCtrlState) (pt : Pt) :
    (showSelection insideC insideL st).selectedComponents = st.selectedComponents
    ∧ (showSelection insideC insideL st).selectedLines = st.selectedLines
    ∧ (showSelection insideC insideL st).mode = st.mode
    ∧ (showSelection insideC insideL st).instances = st.instances
    ∧ (showSelection insideC insideL st).lines = st.lines
    ∧ (showSelection insideC insideL st).rect = st.rect
    ∧ (selectionMousemove insideC insideL st pt).selectedComponents = st.selectedComponents
    ∧ (selectionMousemove insideC insideL st pt).selectedLines = st.selectedLines := by
  obtain ⟨h1, h2, h3, h4, h5, h6⟩ := showSelection_frame insideC insideL st
  refine ⟨h1, h2, h3, h4, h5, h6, ?_, ?_⟩ <;>
    · simp only [selectionMousemove]
      cases hd : st.currentlyDragging
      · simp
      · simp only [if_true]
        first
        | exact (showSelection_frame insideC insideL _).1
        | exact (showSelection_frame insideC insideL _).2.1

/-- C6: for every parsed anchor whose `x` and `y` attributes are numeric
(accepted by the `numberRegEx` and parsed by `Number.parseFloat`, or
absent and defaulted to `0`), the anchor's symbol-relative point is
`(mid.x + x, mid.y − y)` — the y coordinate is negated to convert from
TikZ's up-is-positive convention to the canvas convention. -/
theorem parseAnchor_point_numeric (px : String → ℚ) (mid : Pt) (e : AnchorElem)
    (qx qy : ℚ)
    (hx : anchorCoordVal e.xAttr = .num qx)
    (hy : anchorCoordVal e.yAttr = .num qy) :
    (parseAnchor px mid e).point = ⟨mid.x + qx, mid.y - qy⟩ := by
  simp [parseAnchor, hx, hy, ensureInPx]

/-- C6 witness: the anchor `{name:"G", x:"2", y:"3"}` with `mid = (10,10)`
yields the world point `(12, 7)`. -/
theorem parseAnchor_point_numeric_witness :
    (parseAnchor (fun _ => 0) ⟨10, 10⟩ anchorGElem).point = ⟨12, 7⟩ := by
  have h := parseAnchor_point_numeric (fun _ => 0) ⟨10, 10⟩ anchorGElem 2 3 rfl rfl
  rw [h]
  norm_num

/-- C7: constructing a `ComponentSymbol` from a symbol element throws the
missing-metadata error exactly when the resolved display name or the
resolved tikz name of its base information is missing or empty
(JavaScript-falsy); the constructor additionally requires the metadata
element itself, but a missing metadata element forces a missing tikz name,
so the two conditions coincide.  Otherwise construction succeeds. -/
theorem componentSymbol_missing_metadata (px : String → ℚ) (e : SymbolElem) :
    (∃ msg, constructComponentSymbol px e = .error msg)
      ↔ (strTruthy (getBaseInformation px e).displayName = false
         ∨ strTruthy (getBaseInformation px e).tikzName = false) := by
  have hmeta : (getBaseInformation px e).hasSvgMetadataElement = false →
      (getBaseInformation px e).tikzName = none := by
    rcases e with ⟨meta, vb⟩
    cases meta <;> simp [getBaseInformation]
  have herr : (∃ msg, constructComponentSymbol px e = .error msg)
      ↔ (¬(getBaseInformation px e).hasSvgMetadataElement = true
         ∨ ¬strTruthy (getBaseInformation px e).displayName = true
         ∨ ¬strTruthy (getBaseInformation px e).tikzName = true) := by
    simp only [constructComponentSymbol]
    split
    · next h => exact iff_of_true ⟨_, rfl⟩ h
    · next h =>
        refine iff_of_false ?_ h
        rintro ⟨msg, hmsg⟩
        exact Except.noConfusion hmsg
  rw [herr]
  constructor
  · rintro (h | h | h)
    · have ht := hmeta (by simpa using h)
      right
      simp [ht, strTruthy]
    · left
      simpa using h
    · right
      simpa using h
  · rintro (h | h)
    · right; left; simp [h]
    · right; right; simp [h]

/-- C8: the position of a `SnapPoint` is a function of the last mid point
and angle only (plus the fixed relative position and unit mode): for any
two mids `m1 ≠ m2`, calling `recalculate(m2, a)` and then
`recalculate(m1, a)` yields exactly the same position as a single call
`recalculate(m1, a)`. -/
theorem recalculate_no_hidden_state (s : SnapPointState) (m1 m2 : ℝ × ℝ) (a : ℝ)
    (_hne : m1 ≠ m2) :
    ((s.recalculate (some m2) (some a)).1.recalculate (some m1) (some a)).1.x
      = (s.recalculate (some m1) (some a)).1.x
    ∧ ((s.recalculate (some m2) (some a)).1.recalculate (some m1) (some a)).1.y
      = (s.recalculate (some m1) (some a)).1.y := by
  exact ⟨rfl, rfl⟩

/-- C8 witness: for the sample snap point, recalculating via mid `(2,0)`
and then mid `(1,0)` at angle `0` gives the same position as recalculating
with mid `(1,0)` directly. -/
theorem recalculate_no_hidden_state_witness :
    ((snapExample.recalculate (some (2, 0)) (some 0)).1.recalculate (some (1, 0)) (some 0)).1.x
      = (snapExample.recalculate (some (1, 0)) (some 0)).1.x
    ∧ ((snapExample.recalculate (some (2, 0)) (some 0)).1.recalculate (some (1, 0)) (some 0)).1.y
      = (snapExample.recalculate (some (1, 0)) (some 0)).1.y := by
  exact recalculate_no_hidden_state snapExample (1, 0) (2, 0) 0 (by simp)

/-- C10: after `removeInstance()` (which releases the owner reference), a
call `recalculate(newMid, angle)` is still fully live: it stores the new
mid and angle, recomputes the position from them, and notifies every
registered listener with `isDeleted = false` — it is neither a no-op nor
an error. -/
theorem recalculate_after_removeInstance (s : SnapPointState) (m : ℝ × ℝ) (a : ℝ) :
    (s.removeInstance.1.recalculate (some m) (some a)).1.midPoint = m
    ∧ (s.removeInstance.1.recalculate (some m) (some a)).1.angle = a
    ∧ (s.removeInstance.1.recalculate (some m) (some a)).1.x
        = (recalcPosition s.inDegree a s.relPosition m).1
    ∧ (s.removeInstance.1.recalculate (some m) (some a)).1.y
        = (recalcPosition s.inDegree a s.relPosition m).2
    ∧ (s.removeInstance.1.recalculate (some m) (some a)).2
        = List.replicate s.listeners ⟨s.x, s.y, false⟩ := by
  exact ⟨rfl, rfl, rfl, rfl, rfl⟩

/-- C1: in radian mode the quadrant-optimized path of `recalculate` is
wrong.  For `angle = π/2` (an exact multiple of π/2), `quadrant` is
computed as `angle · 180 / π = 90` — the angle in degrees, not a quadrant
index (the division by 90 is missing, contradicting the source comment
`quadrant --> 0...3`) — so `90 % 4 = 2` selects `sin = 0, cos = −1` and
`recalculate` yields position `(−1, 0)` for `relPosition = (1,0)`,
`mid = (0,0)`, instead of `rotate((1,0), π/2) + (0,0) = (0, −1)` required
by the invariant `position = rotate(relPosition, angle) + mid`. -/
theorem radianQuadrant_wrong_rotation :
    recalcPosition false (Real.pi / 2) (1, 0) (0, 0) = (-1, 0)
    ∧ rotateCW (Real.pi / 2) (1, 0) + ((0 : ℝ), (0 : ℝ)) = (0, -1)
    ∧ (((-1 : ℝ), (0 : ℝ)) : ℝ × ℝ) ≠ ((0 : ℝ), (-1 : ℝ)) := by
  have hq : Real.pi / 2 * 180 / Real.pi = (90 : ℝ) := by
    field_simp
    ring
  have htmod : Int.tmod 90 4 = 2 := by decide
  have hsc : recalcSinCos false (Real.pi / 2) = (0, -1) := by
    simp only [recalcSinCos, Bool.false_eq_true, if_false, hq]
    norm_num [htmod]
  refine ⟨?_, ?_, ?_⟩
  · simp [recalcPosition, hsc]
  · simp [rotateCW, Real.sin_pi_div_two, Real.cos_pi_div_two, Prod.ext_iff]
  · simp [Prod.ext_iff]
